import Mathlib

/-!
Verification of the Offloader extension core (telemetry store and tab
discard logic) against its natural-language specification.

The definitions below are a shallow embedding of the TypeScript source:

- src/ts/telemetry.ts   : the IndexedDB-backed telemetry store
  (updateTabMetadata, logTabEvent, logDiscardEvent, getTabMetadata,
  exportAllData, clearAllData, getStats, purgeOldData, deleteOlderThan)
- src/ts/background.ts  : the service worker discard logic
  (shouldSkipTab, discardTargetTabs, discardAllTabs, handleTabCreated,
  handleTabActivated)

JavaScript objects with optional fields are embedded as structures whose
fields are wrapped in Option (none = field absent). JavaScript spread
merge picks the rightmost present field, embedded with <|> reading
right-to-left priority. Timestamps are Int milliseconds. Platform APIs
(URL parsing, chrome.tabs.discard success) are oracles passed as
function parameters; a small concrete urlHostname model is supplied for
witnesses. String.prototype.toLowerCase and String.prototype.includes
are modelled by jsToLower and jsIncludes on the underlying char lists.
-/

-- ============================================================================
-- Platform string helpers (models of JS String.prototype methods)
-- ============================================================================

/-- Model of JavaScript String.prototype.toLowerCase (ASCII-adequate for
the hostnames and patterns appearing in this development). -/
def jsToLower (s : String) : String :=
  ⟨s.data.map Char.toLower⟩

/-- Substring occurrence test on char lists: pat occurs contiguously in
the second list. -/
def isInfixB (pat : List Char) : List Char → Bool
  | [] => pat.isPrefixOf []
  | c :: rest => pat.isPrefixOf (c :: rest) || isInfixB pat rest

/-- Model of JavaScript String.prototype.includes: pat occurs as a
contiguous substring of s. -/
def jsIncludes (s pat : String) : Bool :=
  isInfixB pat.data s.data

/-- Model of JavaScript String.prototype.startsWith. -/
def jsStartsWith (s p : String) : Bool :=
  p.data.isPrefixOf s.data

/-- Model of the WHATWG URL constructor as used by the source: new
URL(u).hostname succeeds when the string has a scheme separator and
yields the authority up to the first delimiter; on any other shape the
constructor throws, modelled as none. The discard-logic theorems are
stated for an arbitrary parser; this concrete model is used only to
evaluate witnesses on concrete URLs. -/
def urlHostnameAux : List Char → Option (List Char)
  | [] => none
  | c :: rest =>
    if (c :: rest).take 3 = [':', '/', '/'] then
      some (((c :: rest).drop 3).takeWhile
        (fun ch => !(ch == '/' || ch == ':' || ch == '?' || ch == '#')))
    else
      urlHostnameAux rest

def urlHostname (url : String) : Option String :=
  match urlHostnameAux url.data with
  | some [] => none
  | some l => some ⟨l⟩
  | none => none

-- ============================================================================
-- Data model (src/ts/types usage as visible in telemetry.ts / background.ts)
-- ============================================================================

/-- A tab as returned by chrome.tabs.query, restricted to the fields the
source reads. Optional platform fields are Option. -/
structure Tab where
  id : Option Nat := none
  url : Option String := none
  title : Option String := none
  active : Bool := false
  discarded : Bool := false
  windowId : Nat := 0
  index : Nat := 0
  openerTabId : Option Nat := none
deriving Repr, DecidableEq

inductive DiscardReason where
  | siteMatch
  | idle
deriving Repr, DecidableEq

/-- A stored TabMetadata record. Every field other than the key is
Option-wrapped: none means the JS object does not carry the field.
openerTabId and discardedAt may be present holding null, hence the
nested Option. -/
structure TabMetadata where
  tabId : Nat
  url : Option String := none
  domain : Option String := none
  title : Option String := none
  windowId : Option Nat := none
  openerTabId : Option (Option Nat) := none
  createdAt : Option Int := none
  lastUpdated : Option Int := none
  lastActive : Option Int := none
  activationCount : Option Nat := none
  totalActiveTime : Option Nat := none
  wasDiscarded : Option Bool := none
  discardedAt : Option (Option Int) := none
  sessionId : Option String := none
deriving Repr, DecidableEq

/-- An incoming write for updateTabMetadata: a JS object of type
Partial over TabMetadata minus the key. none = field absent. -/
structure MetaUpdate where
  url : Option String := none
  domain : Option String := none
  title : Option String := none
  windowId : Option Nat := none
  openerTabId : Option (Option Nat) := none
  createdAt : Option Int := none
  lastUpdated : Option Int := none
  lastActive : Option Int := none
  activationCount : Option Nat := none
  totalActiveTime : Option Nat := none
  wasDiscarded : Option Bool := none
  discardedAt : Option (Option Int) := none
  sessionId : Option String := none
deriving Repr, DecidableEq

/-- The merged record computed by TabTelemetry.updateTabMetadata
(telemetry.ts lines 156-164): spread of the defaults object, then the
existing record, then the incoming data, then lastUpdated stamped last:
  updated = spread of
    tabId, activationCount 0, totalActiveTime 0, wasDiscarded false,
    existing fields, incoming fields, lastUpdated = Date.now().
A later spread wins only where its field is present. -/
def mergeMetadata (now : Int) (tabId : Nat) (existing : Option TabMetadata)
    (q : MetaUpdate) : TabMetadata :=
  { tabId := tabId
    url := q.url <|> existing.bind (fun m => m.url)
    domain := q.domain <|> existing.bind (fun m => m.domain)
    title := q.title <|> existing.bind (fun m => m.title)
    windowId := q.windowId <|> existing.bind (fun m => m.windowId)
    openerTabId := q.openerTabId <|> existing.bind (fun m => m.openerTabId)
    createdAt := q.createdAt <|> existing.bind (fun m => m.createdAt)
    lastActive := q.lastActive <|> existing.bind (fun m => m.lastActive)
    activationCount :=
      q.activationCount <|> existing.bind (fun m => m.activationCount) <|> some 0
    totalActiveTime :=
      q.totalActiveTime <|> existing.bind (fun m => m.totalActiveTime) <|> some 0
    wasDiscarded :=
      q.wasDiscarded <|> existing.bind (fun m => m.wasDiscarded) <|> some false
    discardedAt := q.discardedAt <|> existing.bind (fun m => m.discardedAt)
    sessionId := q.sessionId <|> existing.bind (fun m => m.sessionId)
    lastUpdated := some now }

/-- Extra data attached to a tab lifecycle event (the Partial argument
of logTabEvent). -/
structure EventData where
  url : Option String := none
  title : Option String := none
  reason : Option DiscardReason := none
  manual : Option Bool := none
  activeTime : Option Int := none
  windowId : Option Nat := none
  index : Option Nat := none
  openerTabId : Option (Option Nat) := none
  windowClosing : Option Bool := none
  timeSinceDiscard : Option Int := none
deriving Repr, DecidableEq

/-- A stored TabEvent record (family tabEvents). -/
structure TabEventRec where
  id : Nat
  tabId : Nat
  eventType : String
  timestamp : Int
  data : EventData := {}
deriving Repr, DecidableEq

/-- Per-tab info collected for a batch discard record. -/
structure DiscardedTabInfo where
  url : String
  domain : String
  title : String
  timeSinceLastActive : Option Int := none
  reason : DiscardReason
deriving Repr, DecidableEq

/-- A stored DiscardEvent record (family discardEvents). -/
structure DiscardEventRec where
  id : Nat
  timestamp : Int
  discardedCount : Nat
  totalTabs : Nat
  tabs : List DiscardedTabInfo
deriving Repr, DecidableEq

/-- The three record families of the store, with the auto-increment key
generators of the two append-only families. -/
structure TelemetryDB where
  nextEventId : Nat := 1
  tabEvents : List TabEventRec := []
  tabMetadata : List TabMetadata := []
  nextDiscardId : Nat := 1
  discardEvents : List DiscardEventRec := []
deriving Repr, DecidableEq

structure ExportedData where
  exportDate : Int
  tabEvents : List TabEventRec
  tabMetadata : List TabMetadata
  discardEvents : List DiscardEventRec
deriving Repr, DecidableEq

structure TelemetryStats where
  totalEvents : Nat
  totalTabs : Nat
  totalDiscards : Nat
deriving Repr, DecidableEq

-- ============================================================================
-- Store operations (telemetry.ts)
-- ============================================================================

/-- TabTelemetry.logTabEvent: when the db is null, warn and return
undefined; otherwise append the event with a store-assigned id and
return that id. -/
def logTabEventOp (db : Option TelemetryDB) (tabId : Nat) (eventType : String)
    (data : EventData) (now : Int) : Option TelemetryDB × Option Nat :=
  match db with
  | none => (none, none)
  | some d =>
    let ev : TabEventRec :=
      { id := d.nextEventId, tabId := tabId, eventType := eventType,
        timestamp := now, data := data }
    (some { d with tabEvents := d.tabEvents ++ [ev], nextEventId := d.nextEventId + 1 },
     some d.nextEventId)

/-- IDBObjectStore.put on the tabMetadata store (keyPath tabId):
replace the record with the same key, or append a new one. -/
def putMetadata (l : List TabMetadata) (r : TabMetadata) : List TabMetadata :=
  if l.any (fun m => m.tabId == r.tabId) then
    l.map (fun m => if m.tabId == r.tabId then r else m)
  else
    l ++ [r]

/-- IDBObjectStore.get on the tabMetadata store. -/
def findMetadata (l : List TabMetadata) (tabId : Nat) : Option TabMetadata :=
  l.find? (fun m => m.tabId == tabId)

/-- TabTelemetry.updateTabMetadata: when the db is null, warn and skip;
otherwise read the existing record, merge per mergeMetadata, and put
the result back. -/
def updateTabMetadataOp (db : Option TelemetryDB) (tabId : Nat) (q : MetaUpdate)
    (now : Int) : Option TelemetryDB :=
  match db with
  | none => none
  | some d =>
    let existing := findMetadata d.tabMetadata tabId
    let updated := mergeMetadata now tabId existing q
    some { d with tabMetadata := putMetadata d.tabMetadata updated }

/-- TabTelemetry.getTabMetadata: undefined when the db is null. -/
def getTabMetadataOp (db : Option TelemetryDB) (tabId : Nat) : Option TabMetadata :=
  match db with
  | none => none
  | some d => findMetadata d.tabMetadata tabId

/-- TabTelemetry.logDiscardEvent: when the db is null, warn and skip;
otherwise append a batch record with discardedCount equal to the length
of the supplied list. -/
def logDiscardEventOp (db : Option TelemetryDB) (discardedTabs : List DiscardedTabInfo)
    (totalTabs : Nat) (now : Int) : Option TelemetryDB :=
  match db with
  | none => none
  | some d =>
    let ev : DiscardEventRec :=
      { id := d.nextDiscardId, timestamp := now,
        discardedCount := discardedTabs.length, totalTabs := totalTabs,
        tabs := discardedTabs }
    some { d with discardEvents := d.discardEvents ++ [ev],
                  nextDiscardId := d.nextDiscardId + 1 }

/-- TabTelemetry.exportAllData: awaits init first. When the db is
already open, read all three families. When it is null, the awaited
init either opens a db (and the export reads it) or rejects with the
open error, which propagates to the caller. initRes is the outcome the
open attempt would have. -/
def exportAllDataOp (initRes : Except String TelemetryDB) (db : Option TelemetryDB)
    (now : Int) : Except String ExportedData :=
  match db with
  | some d =>
    Except.ok { exportDate := now, tabEvents := d.tabEvents,
                tabMetadata := d.tabMetadata, discardEvents := d.discardEvents }
  | none =>
    match initRes with
    | Except.error e => Except.error e
    | Except.ok d =>
      Except.ok { exportDate := now, tabEvents := d.tabEvents,
                  tabMetadata := d.tabMetadata, discardEvents := d.discardEvents }

/-- TabTelemetry.clearAllData: awaits init first (open failure
propagates), then clears the three families. -/
def clearAllDataOp (initRes : Except String TelemetryDB) (db : Option TelemetryDB) :
    Except String TelemetryDB :=
  match db with
  | some d =>
    Except.ok { d with tabEvents := [], tabMetadata := [], discardEvents := [] }
  | none =>
    match initRes with
    | Except.error e => Except.error e
    | Except.ok d =>
      Except.ok { d with tabEvents := [], tabMetadata := [], discardEvents := [] }

/-- TabTelemetry.getStats: awaits init first (open failure propagates),
then counts the three families. -/
def getStatsOp (initRes : Except String TelemetryDB) (db : Option TelemetryDB) :
    Except String TelemetryStats :=
  match db with
  | some d =>
    Except.ok { totalEvents := d.tabEvents.length, totalTabs := d.tabMetadata.length,
                totalDiscards := d.discardEvents.length }
  | none =>
    match initRes with
    | Except.error e => Except.error e
    | Except.ok d =>
      Except.ok { totalEvents := d.tabEvents.length, totalTabs := d.tabMetadata.length,
                  totalDiscards := d.discardEvents.length }

/-- TabTelemetry.deleteOlderThan on one family: the cursor over the
timestamp index with upperBound(cutoff) visits exactly the records with
timestamp ≤ cutoff and deletes each, returning how many. -/
def deleteOlderThanL {α : Type} (ts : α → Int) (cutoff : Int) (l : List α) :
    List α × Nat :=
  (l.filter (fun r => decide (cutoff < ts r)),
   (l.filter (fun r => decide (ts r ≤ cutoff))).length)

/-- TabTelemetry.purgeOldData: awaits init first (open failure
propagates), computes cutoff = now - retentionDays * 24*60*60*1000 and
deletes records with timestamp ≤ cutoff from tabEvents and
discardEvents; tabMetadata is not purged. Returns the two counts. -/
def purgeOldDataOp (initRes : Except String TelemetryDB) (db : Option TelemetryDB)
    (now : Int) (retentionDays : Nat) : Except String (TelemetryDB × Nat × Nat) :=
  let run : TelemetryDB → TelemetryDB × Nat × Nat := fun d =>
    let cutoff : Int := now - (retentionDays : Int) * 24 * 60 * 60 * 1000
    let pe := deleteOlderThanL (fun e : TabEventRec => e.timestamp) cutoff d.tabEvents
    let pd := deleteOlderThanL (fun e : DiscardEventRec => e.timestamp) cutoff d.discardEvents
    ({ d with tabEvents := pe.1, discardEvents := pd.1 }, pe.2, pd.2)
  match db with
  | some d => Except.ok (run d)
  | none =>
    match initRes with
    | Except.error e => Except.error e
    | Except.ok d => Except.ok (run d)

-- ============================================================================
-- Discard logic (background.ts)
-- ============================================================================

/-- The extension config as consumed by the discard pass. targetSites
keeps Object.entries insertion order. -/
structure ExtConfig where
  autoDiscardEnabled : Bool := true
  targetSites : List (String × Bool) := []
  discardInterval : Nat := 10
  idleTabThreshold : Nat := 24
  dataRetentionDays : Nat := 90
deriving Repr, DecidableEq

/-- background.ts shouldSkipTab: already discarded, or active, or no
URL, or no id, or a chrome-internal / extension-page URL prefix. -/
def shouldSkipTab (tab : Tab) : Bool :=
  if tab.discarded || tab.active then true
  else if tab.url.isNone || tab.id.isNone then true
  else
    ["chrome://", "chrome-extension://", "chrome-untrusted://"].any
      (fun p => jsStartsWith (tab.url.getD "") p)

/-- The enabled, lowercased patterns built from config.targetSites at
the start of a pass. -/
def enabledPatterns (targetSites : List (String × Bool)) : List String :=
  (targetSites.filter (fun e => e.2)).map (fun e => jsToLower e.1)

/-- The per-tab body of the discardTargetTabs loop, up to the decision:
skip per shouldSkipTab; skip when the URL is absent; on URL parse
failure continue to the next tab; otherwise site-match on the
lowercased hostname, and only if that did not fire, the telemetry-backed
idle check gated on idleTabThreshold > 0 and store readiness. -/
def tabDecision (parse : String → Option String) (patterns : List String)
    (idleThreshold : Nat) (ready : Bool) (lookup : Nat → Option TabMetadata)
    (now : Int) (tab : Tab) : Option DiscardReason :=
  if shouldSkipTab tab then none
  else
    match tab.url with
    | none => none
    | some url =>
      match parse url with
      | none => none
      | some host =>
        let hostname := jsToLower host
        if patterns.any (fun p => jsIncludes hostname p) then
          some DiscardReason.siteMatch
        else if idleThreshold > 0 && ready then
          match (lookup (tab.id.getD 0)).bind (fun m => m.lastActive) with
          | some la =>
            if now - la > (idleThreshold : Int) * 60 * 60 * 1000 then
              some DiscardReason.idle
            else none
          | none => none
        else none

/-- One iteration of the discardTargetTabs loop after the decision: when
the tab is eligible, chrome.tabs.discard is invoked (recorded with its
reason); when the invocation succeeds the per-tab info is collected
(hostname re-parsed, not lowercased; missing title becomes Untitled). -/
def passStep (parse : String → Option String) (patterns : List String)
    (idleThreshold : Nat) (ready : Bool) (lookup : Nat → Option TabMetadata)
    (discardOk : Nat → Bool) (now : Int) (tab : Tab) :
    Option ((Nat × DiscardReason) × Option DiscardedTabInfo) :=
  match tabDecision parse patterns idleThreshold ready lookup now tab with
  | none => none
  | some reason =>
    let tabId := tab.id.getD 0
    let url := tab.url.getD ""
    some ((tabId, reason),
      if discardOk tabId then
        match parse url with
        | some host =>
          some { url := url, domain := host, title := tab.title.getD "Untitled",
                 timeSinceLastActive := none, reason := reason }
        | none => none
      else none)

/-- The observable outcome of one automatic pass. -/
structure PassResult where
  invocations : List (Nat × DiscardReason)
  discardedTabs : List DiscardedTabInfo
  batch : Option DiscardEventRec
  lastRun : Int
  lastDiscardedCount : Nat
deriving Repr, DecidableEq

/-- background.ts discardTargetTabs as a pure function of the queried
tab list, the config, the telemetry readiness and lookup, and the
discard-action oracle. A batch record is logged only when at least one
tab was discarded and telemetry is ready; last-run bookkeeping is
stored unconditionally. -/
def discardTargetTabs (parse : String → Option String) (cfg : ExtConfig)
    (ready : Bool) (lookup : Nat → Option TabMetadata) (discardOk : Nat → Bool)
    (now : Int) (tabs : List Tab) : PassResult :=
  let patterns := enabledPatterns cfg.targetSites
  let step := passStep parse patterns cfg.idleTabThreshold ready lookup discardOk now
  let invocations := tabs.filterMap (fun t => (step t).map (fun r => r.1))
  let discardedTabs := tabs.filterMap (fun t => (step t).bind (fun r => r.2))
  { invocations := invocations
    discardedTabs := discardedTabs
    batch :=
      if discardedTabs.length > 0 && ready then
        some { id := 0, timestamp := now, discardedCount := discardedTabs.length,
               totalTabs := tabs.length, tabs := discardedTabs }
      else none
    lastRun := now
    lastDiscardedCount := discardedTabs.length }

/-- background.ts discardAllTabs: same skip predicate, no eligibility
rules; every surviving tab gets a discard invocation, successful ones
are counted, and the count is returned. -/
def discardAllTabs (discardOk : Nat → Bool) (tabs : List Tab) : List Nat × Nat :=
  let eligible := tabs.filter (fun t => !shouldSkipTab t)
  let invocations := eligible.map (fun t => t.id.getD 0)
  (invocations, (invocations.filter (fun i => discardOk i)).length)

/-- The effects of background.ts handleTabCreated: nothing when
telemetry is not ready; otherwise a created event, and a metadata write
only when the tab has a nonempty URL whose hostname parses - on parse
failure the catch skips the whole metadata write. -/
structure CreatedEffects where
  event : Option (Nat × EventData)
  metadataWrite : Option (Nat × MetaUpdate)
deriving Repr, DecidableEq

def handleTabCreated (parse : String → Option String) (ready : Bool) (now : Int)
    (tab : Tab) : CreatedEffects :=
  if !ready then { event := none, metadataWrite := none }
  else
    { event := some (tab.id.getD 0,
        { url := tab.url, title := tab.title, windowId := some tab.windowId,
          index := some tab.index, openerTabId := some tab.openerTabId })
      metadataWrite :=
        match tab.url with
        | none => none
        | some url =>
          if url.length > 0 then
            match parse url with
            | some domain =>
              some (tab.id.getD 0,
                { url := some url, domain := some domain, title := tab.title,
                  windowId := some tab.windowId,
                  openerTabId := some tab.openerTabId,
                  createdAt := some now })
            | none => none
          else none }

/-- The metadata write issued by background.ts handleTabActivated for
the newly activated tab when its metadata exists: activationCount is
read, incremented and written back, and lastActive is stamped. -/
def activationUpdate (m : TabMetadata) (now : Int) : MetaUpdate :=
  { activationCount := some (m.activationCount.getD 0 + 1),
    lastActive := some now }

/-- The metadata write issued by background.ts handleTabActivated for
the previously active tab: the elapsed active time is added to the
stored totalActiveTime and written back. -/
def deactivationUpdate (m : TabMetadata) (activeTime : Nat) (now : Int) : MetaUpdate :=
  { totalActiveTime := some (m.totalActiveTime.getD 0 + activeTime),
    lastActive := some now }

-- ============================================================================
-- Helper lemmas
-- ============================================================================

theorem isInfixB_iff (pat l : List Char) : isInfixB pat l = true ↔ pat <:+: l := by
  induction l with
  | nil => simp [isInfixB, List.isPrefixOf_iff_prefix]
  | cons c rest ih =>
    simp [isInfixB, List.isPrefixOf_iff_prefix, List.infix_cons_iff, ih]

theorem jsIncludes_iff (s pat : String) :
    jsIncludes s pat = true ↔ pat.data <:+: s.data :=
  isInfixB_iff pat.data s.data

theorem shouldSkipTab_false_ids (tab : Tab) (h : shouldSkipTab tab = false) :
    tab.id.isSome = true ∧ tab.url.isSome = true := by
  simp only [shouldSkipTab] at h
  split at h
  · simp at h
  · split at h
    · simp at h
    · rename_i hB
      constructor
      · cases hid : tab.id with
        | none => rw [hid] at hB; simp at hB
        | some j => rfl
      · cases hu : tab.url with
        | none => rw [hu] at hB; simp at hB
        | some u => rfl

theorem tabDecision_some_not_skip {parse patterns idleThreshold ready lookup now tab r}
    (h : tabDecision parse patterns idleThreshold ready lookup now tab = some r) :
    shouldSkipTab tab = false := by
  by_contra hs
  simp only [Bool.not_eq_false] at hs
  simp [tabDecision, hs] at h

-- ============================================================================
-- Claim theorems: metadata store (C1, C2, C10)
-- ============================================================================

/-- Claim C1 (code bug evaluation): the store as implemented in
src/ts/telemetry.ts performs a plain shallow merge with no sessionId
comparison, so a write for tabId 100 under sessionId session-A with
activationCount 10 and totalActiveTime 5000, followed by a write under
sessionId session-B carrying no counters, leaves activationCount = 10
and totalActiveTime = 5000 instead of resetting them to 0 as the spec
and the repository test (telemetry.test.ts, tab ID reuse detection)
require; domain and url are overwritten. -/
theorem updateTabMetadata_session_change_keeps_counters :
    (getTabMetadataOp
      (updateTabMetadataOp
        (updateTabMetadataOp (some {}) 100
          { url := some "https://example.com", domain := some "example.com",
            sessionId := some "session-A", activationCount := some 10,
            totalActiveTime := some 5000 } 10)
        100
        { url := some "https://newsite.com", domain := some "newsite.com",
          sessionId := some "session-B" } 20)
      100).map (fun m => (m.activationCount, m.totalActiveTime, m.url, m.sessionId)) =
    some (some 10, some 5000, some "https://newsite.com", some "session-B") := by
  decide

/-- Claim C2 (counterexample): two writes to tabId 100 under the same
sessionId S, the first storing activationCount 5, the second supplying
activationCount 3: the store keeps 3 (the incoming value overwrites),
not 8 (the sum the claim requires). -/
theorem updateTabMetadata_same_session_overwrites :
    (getTabMetadataOp
      (updateTabMetadataOp
        (updateTabMetadataOp (some {}) 100
          { url := some "https://example.com", sessionId := some "S",
            activationCount := some 5 } 10)
        100 { sessionId := some "S", activationCount := some 3 } 20)
      100).map (fun m => m.activationCount) = some (some 3) := by
  decide

/-- Claim C2 (amended): under same-session writes the store shallow
merges every field: a counter supplied by the incoming data replaces
the stored value, a counter absent from the incoming data is preserved
(defaulting to 0), and non-counter fields behave the same way;
accumulation happens at the call sites, whose activation and
deactivation writes read the stored counter and write back the stored
value plus the delta. -/
theorem updateTabMetadata_same_session_merge :
    ∀ (now : Int) (tabId : Nat) (existing : Option TabMetadata) (q : MetaUpdate),
      (∀ v, q.activationCount = some v →
        (mergeMetadata now tabId existing q).activationCount = some v)
      ∧ (∀ w, q.totalActiveTime = some w →
        (mergeMetadata now tabId existing q).totalActiveTime = some w)
      ∧ (q.activationCount = none →
        (mergeMetadata now tabId existing q).activationCount =
          some ((existing.bind (fun m => m.activationCount)).getD 0))
      ∧ (q.totalActiveTime = none →
        (mergeMetadata now tabId existing q).totalActiveTime =
          some ((existing.bind (fun m => m.totalActiveTime)).getD 0))
      ∧ (∀ u, q.url = some u → (mergeMetadata now tabId existing q).url = some u)
      ∧ (q.url = none →
        (mergeMetadata now tabId existing q).url = existing.bind (fun m => m.url))
      ∧ (∀ (m : TabMetadata),
        (mergeMetadata now tabId (some m) (activationUpdate m now)).activationCount =
          some (m.activationCount.getD 0 + 1))
      ∧ ∀ (m : TabMetadata) (activeTime : Nat),
        (mergeMetadata now tabId (some m)
          (deactivationUpdate m activeTime now)).totalActiveTime =
          some (m.totalActiveTime.getD 0 + activeTime) := by
  intro now tabId existing q
  refine ⟨?_, ?_, ?_, ?_, ?_, ?_, ?_, ?_⟩
  · intro v hv; simp [mergeMetadata, hv, Option.orElse]
  · intro w hw; simp [mergeMetadata, hw, Option.orElse]
  · intro hv
    cases he : existing.bind (fun m => m.activationCount) <;>
      simp [mergeMetadata, hv, he, Option.orElse]
  · intro hw
    cases he : existing.bind (fun m => m.totalActiveTime) <;>
      simp [mergeMetadata, hw, he, Option.orElse]
  · intro u hu; simp [mergeMetadata, hu, Option.orElse]
  · intro hu; cases he : existing.bind (fun m => m.url) <;>
      simp [mergeMetadata, hu, he, Option.orElse]
  · intro m; simp [mergeMetadata, activationUpdate, Option.orElse]
  · intro m activeTime; simp [mergeMetadata, deactivationUpdate, Option.orElse]

/-- Witness for the amended C2 theorem at concrete inputs. -/
theorem updateTabMetadata_same_session_merge_witness :
    (mergeMetadata 20 100 (some (mergeMetadata 10 100 none
      { sessionId := some "S", activationCount := some 5 }))
      { sessionId := some "S", activationCount := some 3 }).activationCount = some 3 :=
  (updateTabMetadata_same_session_merge 20 100
    (some (mergeMetadata 10 100 none
      { sessionId := some "S", activationCount := some 5 }))
    { sessionId := some "S", activationCount := some 3 }).1 3 rfl

/-- Claim C10: every record stored by updateTabMetadata has
activationCount, totalActiveTime and wasDiscarded present (defaulting
to 0, 0 and false when neither the existing record nor the incoming
data supplies them) and carries lastUpdated equal to the write time,
regardless of what the incoming data says; the store writes exactly the
merged record. -/
theorem updateTabMetadata_fields_always_defined :
    ∀ (now : Int) (tabId : Nat) (existing : Option TabMetadata) (q : MetaUpdate),
      (mergeMetadata now tabId existing q).activationCount.isSome = true
      ∧ (mergeMetadata now tabId existing q).totalActiveTime.isSome = true
      ∧ (mergeMetadata now tabId existing q).wasDiscarded.isSome = true
      ∧ (q.activationCount = none → existing.bind (fun m => m.activationCount) = none →
          (mergeMetadata now tabId existing q).activationCount = some 0)
      ∧ (q.totalActiveTime = none → existing.bind (fun m => m.totalActiveTime) = none →
          (mergeMetadata now tabId existing q).totalActiveTime = some 0)
      ∧ (q.wasDiscarded = none → existing.bind (fun m => m.wasDiscarded) = none →
          (mergeMetadata now tabId existing q).wasDiscarded = some false)
      ∧ (mergeMetadata now tabId existing q).lastUpdated = some now
      ∧ ∀ (d : TelemetryDB),
          updateTabMetadataOp (some d) tabId q now = some { d with tabMetadata := putMetadata d.tabMetadata (mergeMetadata now tabId (findMetadata d.tabMetadata tabId) q) } := by
  intro now tabId existing q
  refine ⟨?_, ?_, ?_, ?_, ?_, ?_, rfl, fun d => rfl⟩
  · cases hq : q.activationCount <;>
      cases he : existing.bind (fun m => m.activationCount) <;>
      simp [mergeMetadata, hq, he, Option.orElse]
  · cases hq : q.totalActiveTime <;>
      cases he : existing.bind (fun m => m.totalActiveTime) <;>
      simp [mergeMetadata, hq, he, Option.orElse]
  · cases hq : q.wasDiscarded <;>
      cases he : existing.bind (fun m => m.wasDiscarded) <;>
      simp [mergeMetadata, hq, he, Option.orElse]
  · intro h1 h2; simp [mergeMetadata, h1, h2, Option.orElse]
  · intro h1 h2; simp [mergeMetadata, h1, h2, Option.orElse]
  · intro h1 h2; simp [mergeMetadata, h1, h2, Option.orElse]

/-- Witness for the C10 theorem at concrete inputs. -/
theorem updateTabMetadata_fields_always_defined_witness :
    (mergeMetadata 5 1 none {}).activationCount = some 0
    ∧ (mergeMetadata 5 1 none { lastUpdated := some 999 }).lastUpdated = some 5 := by
  constructor
  · exact (updateTabMetadata_fields_always_defined 5 1 none {}).2.2.2.1 rfl rfl
  · exact (updateTabMetadata_fields_always_defined 5 1 none
      { lastUpdated := some 999 }).2.2.2.2.2.2.1

-- ============================================================================
-- Claim theorems: discard pass (C3, C4, C5)
-- ============================================================================

theorem passStep_some {parse : String → Option String} {patterns : List String}
    {th : Nat} {ready : Bool} {lookup : Nat → Option TabMetadata}
    {ok : Nat → Bool} {now : Int} {tab : Tab}
    {a : (Nat × DiscardReason) × Option DiscardedTabInfo}
    (h : passStep parse patterns th ready lookup ok now tab = some a) :
    ∃ reason, tabDecision parse patterns th ready lookup now tab = some reason ∧
      a.1 = (tab.id.getD 0, reason) := by
  unfold passStep at h
  cases hd : tabDecision parse patterns th ready lookup now tab with
  | none => rw [hd] at h; simp at h
  | some reason =>
    rw [hd] at h
    simp only [Option.some.injEq] at h
    exact ⟨reason, rfl, by rw [← h]⟩

/-- Claim C3: a tab for which the skip predicate holds (already
discarded, active, no URL, no id, or a chrome-internal or
extension-page URL) never receives a discard invocation, neither in the
automatic eligibility pass nor in the manual discard-all pass,
regardless of the site-pattern and idle-threshold configuration. -/
theorem skipped_tab_never_discarded :
    ∀ (parse : String → Option String) (cfg : ExtConfig) (ready : Bool)
      (lookup : Nat → Option TabMetadata) (discardOk : Nat → Bool) (now : Int)
      (tabs : List Tab) (i : Nat),
      (∀ tab ∈ tabs, tab.id = some i → shouldSkipTab tab = true) →
      i ∉ (discardTargetTabs parse cfg ready lookup discardOk now tabs).invocations.map
            Prod.fst
      ∧ i ∉ (discardAllTabs discardOk tabs).1 := by
  intro parse cfg ready lookup discardOk now tabs i h
  constructor
  · intro hmem
    simp only [discardTargetTabs, List.mem_map, List.mem_filterMap] at hmem
    obtain ⟨p, ⟨tab, htab, hstep⟩, hfst⟩ := hmem
    obtain ⟨a, ha, hap⟩ := Option.map_eq_some'.mp hstep
    obtain ⟨reason, hdec, ha1⟩ := passStep_some ha
    have hskip := tabDecision_some_not_skip hdec
    obtain ⟨hid, _⟩ := shouldSkipTab_false_ids tab hskip
    obtain ⟨j, hj⟩ := Option.isSome_iff_exists.mp hid
    have : tab.id = some i := by
      rw [hj]
      have : p.1 = i := hfst
      rw [← hap, ha1] at this
      simp only [Prod.fst] at this
      rw [hj] at this
      simp at this
      rw [this]
    exact absurd (h tab htab this) (by simp [hskip])
  · intro hmem
    simp only [discardAllTabs, List.mem_map, List.mem_filter] at hmem
    obtain ⟨tab, ⟨htab, hns⟩, hgd⟩ := hmem
    have hskip : shouldSkipTab tab = false := by
      cases hx : shouldSkipTab tab with
      | false => rfl
      | true => rw [hx] at hns; simp at hns
    obtain ⟨hid, _⟩ := shouldSkipTab_false_ids tab hskip
    obtain ⟨j, hj⟩ := Option.isSome_iff_exists.mp hid
    have : tab.id = some i := by
      rw [hj]
      rw [hj] at hgd
      simp at hgd
      rw [hgd]
    exact absurd (h tab htab this) (by simp [hskip])

theorem skipped_tab_never_discarded_witness :
    (∀ tab ∈ [{ id := some 5, url := some "https://x.com", active := true : Tab }],
      tab.id = some 5 → shouldSkipTab tab = true)
    ∧ 5 ∉ (discardTargetTabs urlHostname {} true (fun _ => none) (fun _ => true) 0
        [{ id := some 5, url := some "https://x.com", active := true : Tab }]).invocations.map
          Prod.fst
    ∧ 5 ∉ (discardAllTabs (fun _ => true)
        [{ id := some 5, url := some "https://x.com", active := true : Tab }]).1 := by
  refine ⟨by decide, ?_⟩
  have := skipped_tab_never_discarded urlHostname {} true (fun _ => none) (fun _ => true) 0
    [{ id := some 5, url := some "https://x.com", active := true : Tab }] 5 (by decide)
  exact this

theorem tabDecision_idle_iff (parse : String → Option String) (patterns : List String)
    (idleThreshold : Nat) (ready : Bool) (lookup : Nat → Option TabMetadata)
    (now : Int) (tab : Tab) :
    tabDecision parse patterns idleThreshold ready lookup now tab =
        some DiscardReason.idle ↔
      shouldSkipTab tab = false ∧
      ∃ url host, tab.url = some url ∧ parse url = some host ∧
        patterns.any (fun p => jsIncludes (jsToLower host) p) = false ∧
        0 < idleThreshold ∧ ready = true ∧
        ∃ la, (lookup (tab.id.getD 0)).bind (fun m => m.lastActive) = some la ∧
          now - la > (idleThreshold : Int) * 3600000 := by
  constructor
  · intro h
    by_cases hs : shouldSkipTab tab
    · simp [tabDecision, hs] at h
    · cases hu : tab.url with
      | none => simp [tabDecision, hs, hu] at h
      | some url =>
        cases hp : parse url with
        | none => simp [tabDecision, hs, hu, hp] at h
        | some host =>
          by_cases hm : patterns.any (fun p => jsIncludes (jsToLower host) p) = true
          · simp [tabDecision, hs, hu, hp, hm] at h
          · rw [Bool.not_eq_true] at hm
            by_cases hth : 0 < idleThreshold
            · by_cases hr : ready = true
              · cases hla : (lookup (tab.id.getD 0)).bind (fun m => m.lastActive) with
                | none => simp [tabDecision, hs, hu, hp, hm, hth, hr, hla] at h
                | some la =>
                  by_cases ht : now - la > (idleThreshold : Int) * 60 * 60 * 1000
                  · refine ⟨by simp [hs], url, host, rfl, hp, hm, hth, hr, la, rfl, ?_⟩
                    have heq : (idleThreshold : Int) * 3600000 =
                        (idleThreshold : Int) * 60 * 60 * 1000 := by ring
                    rw [heq]
                    exact ht
                  · simp [tabDecision, hs, hu, hp, hm, hth, hr, hla, ht] at h
              · rw [Bool.not_eq_true] at hr
                simp [tabDecision, hs, hu, hp, hm, hth, hr] at h
            · simp [tabDecision, hs, hu, hp, hm, hth] at h
  · rintro ⟨hs, url, host, hu, hp, hm, hth, hr, la, hla, ht⟩
    have ht' : now - la > (idleThreshold : Int) * 60 * 60 * 1000 := by
      have heq : (idleThreshold : Int) * 60 * 60 * 1000 = (idleThreshold : Int) * 3600000 := by
        ring
      rw [heq]
      exact ht
    simp [tabDecision, hs, hu, hp, hm, hth, hr, hla, ht']

/-- Claim C4: the idle rule marks a tab eligible with reason idle
exactly when the tab is not skipped, its URL parses, the site rule did
not fire, idleTabThreshold is positive, the telemetry store is ready,
and the stored metadata has a lastActive with now - lastActive greater
than idleTabThreshold hours in milliseconds; consequently no tab is
ever discarded with reason idle when idleTabThreshold = 0, and a tab
whose metadata has no lastActive is never marked idle. -/
theorem idle_rule_characterization :
    ∀ (parse : String → Option String) (patterns : List String) (idleThreshold : Nat)
      (ready : Bool) (lookup : Nat → Option TabMetadata) (now : Int) (tab : Tab),
      (tabDecision parse patterns idleThreshold ready lookup now tab =
          some DiscardReason.idle ↔
        shouldSkipTab tab = false ∧
        ∃ url host, tab.url = some url ∧ parse url = some host ∧
          patterns.any (fun p => jsIncludes (jsToLower host) p) = false ∧
          0 < idleThreshold ∧ ready = true ∧
          ∃ la, (lookup (tab.id.getD 0)).bind (fun m => m.lastActive) = some la ∧
            now - la > (idleThreshold : Int) * 3600000)
      ∧ (idleThreshold = 0 →
          tabDecision parse patterns idleThreshold ready lookup now tab ≠
            some DiscardReason.idle)
      ∧ ((lookup (tab.id.getD 0)).bind (fun m => m.lastActive) = none →
          tabDecision parse patterns idleThreshold ready lookup now tab ≠
            some DiscardReason.idle)
      ∧ ∀ (cfg : ExtConfig) (discardOk : Nat → Bool) (tabs : List Tab) (i : Nat),
          cfg.idleTabThreshold = 0 →
          (i, DiscardReason.idle) ∉
            (discardTargetTabs parse cfg ready lookup discardOk now tabs).invocations := by
  intro parse patterns idleThreshold ready lookup now tab
  refine ⟨tabDecision_idle_iff parse patterns idleThreshold ready lookup now tab, ?_, ?_, ?_⟩
  · intro h0 hc
    obtain ⟨-, -, -, -, -, -, hth, -⟩ := (tabDecision_idle_iff _ _ _ _ _ _ _).mp hc
    omega
  · intro hn hc
    obtain ⟨-, -, -, -, -, -, -, -, la, hla, -⟩ := (tabDecision_idle_iff _ _ _ _ _ _ _).mp hc
    rw [hn] at hla
    exact Option.noConfusion hla
  · intro cfg discardOk tabs i h0 hmem
    simp only [discardTargetTabs, List.mem_filterMap] at hmem
    obtain ⟨t, htmem, hstep⟩ := hmem
    obtain ⟨a, ha, hap⟩ := Option.map_eq_some'.mp hstep
    obtain ⟨reason, hdec, ha1⟩ := passStep_some ha
    rw [ha1] at hap
    have hreason : reason = DiscardReason.idle := congrArg Prod.snd hap
    rw [hreason] at hdec
    obtain ⟨-, -, -, -, -, -, hth, -⟩ := (tabDecision_idle_iff _ _ _ _ _ _ _).mp hdec
    omega

/-- Witness for claim C4 at a concrete input: threshold 24h, metadata
last active at time 0, now past the threshold. -/
theorem idle_rule_characterization_witness :
    tabDecision urlHostname [] 24 true
      (fun _ => some { tabId := 9, lastActive := some 0 }) 100000000
      { id := some 9, url := some "https://a.com" } = some DiscardReason.idle := by
  refine (idle_rule_characterization urlHostname [] 24 true
    (fun _ => some { tabId := 9, lastActive := some 0 }) 100000000
    { id := some 9, url := some "https://a.com" }).1.mpr ?_
  exact ⟨by decide, "https://a.com", "a.com", by decide, by decide, by decide, by decide,
    rfl, 0, rfl, by decide⟩

theorem tabDecision_siteMatch_iff (parse : String → Option String)
    (patterns : List String) (idleThreshold : Nat) (ready : Bool)
    (lookup : Nat → Option TabMetadata) (now : Int) (tab : Tab) :
    tabDecision parse patterns idleThreshold ready lookup now tab =
        some DiscardReason.siteMatch ↔
      shouldSkipTab tab = false ∧
      ∃ url host, tab.url = some url ∧ parse url = some host ∧
        patterns.any (fun p => jsIncludes (jsToLower host) p) = true := by
  constructor
  · intro h
    by_cases hs : shouldSkipTab tab
    · simp [tabDecision, hs] at h
    · cases hu : tab.url with
      | none => simp [tabDecision, hs, hu] at h
      | some url =>
        cases hp : parse url with
        | none => simp [tabDecision, hs, hu, hp] at h
        | some host =>
          by_cases hm : patterns.any (fun p => jsIncludes (jsToLower host) p) = true
          · exact ⟨by simp [hs], url, host, rfl, hp, hm⟩
          · rw [Bool.not_eq_true] at hm
            by_cases hth : 0 < idleThreshold
            · by_cases hr : ready = true
              · cases hla : (lookup (tab.id.getD 0)).bind (fun m => m.lastActive) with
                | none => simp [tabDecision, hs, hu, hp, hm, hth, hr, hla] at h
                | some la =>
                  by_cases ht : now - la > (idleThreshold : Int) * 60 * 60 * 1000
                  · simp [tabDecision, hs, hu, hp, hm, hth, hr, hla, ht] at h
                  · simp [tabDecision, hs, hu, hp, hm, hth, hr, hla, ht] at h
              · rw [Bool.not_eq_true] at hr
                simp [tabDecision, hs, hu, hp, hm, hth, hr] at h
            · simp [tabDecision, hs, hu, hp, hm, hth] at h
  · rintro ⟨hs, url, host, hu, hp, hm⟩
    simp [tabDecision, hs, hu, hp, hm]

/-- Claim C5: for a non-skipped tab whose URL parses to a hostname, the
site-match rule fires exactly when some enabled pattern of targetSites
occurs as a plain substring of the lowercased hostname (patterns are
themselves lowercased, so matching is case-insensitive), and an empty
enabled-pattern set matches nothing. -/
theorem site_match_rule_characterization :
    ∀ (parse : String → Option String) (ts : List (String × Bool))
      (idleThreshold : Nat) (ready : Bool) (lookup : Nat → Option TabMetadata)
      (now : Int) (tab : Tab),
      (tabDecision parse (enabledPatterns ts) idleThreshold ready lookup now tab =
          some DiscardReason.siteMatch ↔
        shouldSkipTab tab = false ∧
        ∃ url host, tab.url = some url ∧ parse url = some host ∧
          ∃ p ∈ enabledPatterns ts, p.data <:+: (jsToLower host).data)
      ∧ (enabledPatterns ts = [] →
        tabDecision parse (enabledPatterns ts) idleThreshold ready lookup now tab ≠
          some DiscardReason.siteMatch) := by
  intro parse ts idleThreshold ready lookup now tab
  have hmain :
      tabDecision parse (enabledPatterns ts) idleThreshold ready lookup now tab =
          some DiscardReason.siteMatch ↔
        shouldSkipTab tab = false ∧
        ∃ url host, tab.url = some url ∧ parse url = some host ∧
          ∃ p ∈ enabledPatterns ts, p.data <:+: (jsToLower host).data := by
    rw [tabDecision_siteMatch_iff]
    constructor
    · rintro ⟨hs, url, host, hu, hp, hm⟩
      obtain ⟨p, hpmem, hpinc⟩ := List.any_eq_true.mp hm
      exact ⟨hs, url, host, hu, hp, p, hpmem, (jsIncludes_iff _ _).mp hpinc⟩
    · rintro ⟨hs, url, host, hu, hp, p, hpmem, hpinf⟩
      exact ⟨hs, url, host, hu, hp,
        List.any_eq_true.mpr ⟨p, hpmem, (jsIncludes_iff _ _).mpr hpinf⟩⟩
  refine ⟨hmain, ?_⟩
  intro hempty hc
  obtain ⟨-, -, -, -, -, p, hpmem, -⟩ := hmain.mp hc
  rw [hempty] at hpmem
  simp at hpmem

/-- Witness for claim C5: the pattern slack, stored enabled in
targetSites, matches the hostname TEAMS.SLACK.COM case-insensitively,
so the tab is marked eligible with reason site-match. -/
theorem site_match_rule_characterization_witness :
    tabDecision urlHostname (enabledPatterns [("slack", true)]) 0 true (fun _ => none) 0
      { id := some 3, url := some "https://TEAMS.SLACK.COM/x" } =
      some DiscardReason.siteMatch :=
  (site_match_rule_characterization urlHostname [("slack", true)] 0 true (fun _ => none) 0
    { id := some 3, url := some "https://TEAMS.SLACK.COM/x" }).1.mpr
    ⟨by decide, "https://TEAMS.SLACK.COM/x", "TEAMS.SLACK.COM", by decide, by decide,
      "slack", by decide, (jsIncludes_iff _ _).mp (by decide)⟩

-- ============================================================================
-- Claim theorems: retention sweeper (C6)
-- ============================================================================

theorem filter_cutoff_split {α : Type} (ts : α → Int) (cutoff : Int) (l : List α) :
    ((l.filter (fun r => decide (cutoff < ts r))).filter
        (fun r => decide (cutoff < ts r))) =
      l.filter (fun r => decide (cutoff < ts r))
    ∧ (l.filter (fun r => decide (cutoff < ts r))).filter
        (fun r => decide (ts r ≤ cutoff)) = [] := by
  induction l with
  | nil => simp
  | cons a rest ih =>
    by_cases h : cutoff < ts a
    · have h2 : ¬ ts a ≤ cutoff := by omega
      simp [List.filter_cons, h, h2, ih.1, ih.2]
    · simp [List.filter_cons, h, ih.1, ih.2]

/-- Claim C6 (counterexample): an event store holding one record with
timestamp 200 is untouched by a purge with cutoff 100, but a repeated
purge on the unchanged store with the later cutoff 200 deletes that
record, so repeating the purge with a later cutoff can delete records
the first purge kept. -/
theorem purge_later_cutoff_deletes_more :
    purgeOldDataOp (Except.ok {}) (some
        { tabEvents := [{ id := 1, tabId := 1, eventType := "created", timestamp := 200 }] })
        86400100 1 =
      Except.ok
        ({ tabEvents := [{ id := 1, tabId := 1, eventType := "created", timestamp := 200 }] },
          0, 0)
    ∧ purgeOldDataOp (Except.ok {}) (some
        { tabEvents := [{ id := 1, tabId := 1, eventType := "created", timestamp := 200 }] })
        86400200 1 =
      Except.ok ({ tabEvents := [] }, 1, 0) := by
  constructor
  · rfl
  · rfl

/-- Claim C6 (amended): purge computes cutoff = now - retentionDays x
86400000 ms and deletes exactly the records with timestamp ≤ cutoff
from the tabEvents and discardEvents families, returning the two
deletion counts; the tabMetadata family and the key generators are
untouched; repeating the purge with the same cutoff on the unchanged
result deletes nothing further; a later cutoff deletes exactly the
records whose timestamps have meanwhile fallen under it; retentionDays
0 purges with cutoff = now. -/
theorem purgeOldData_characterization :
    ∀ (initRes : Except String TelemetryDB) (d : TelemetryDB) (now : Int) (rd : Nat),
      (∃ d' e c, purgeOldDataOp initRes (some d) now rd = Except.ok (d', e, c)
        ∧ d'.tabEvents =
            d.tabEvents.filter (fun r => decide (now - (rd : Int) * 86400000 < r.timestamp))
        ∧ d'.discardEvents =
            d.discardEvents.filter (fun r => decide (now - (rd : Int) * 86400000 < r.timestamp))
        ∧ d'.tabMetadata = d.tabMetadata
        ∧ d'.nextEventId = d.nextEventId
        ∧ d'.nextDiscardId = d.nextDiscardId
        ∧ e = (d.tabEvents.filter
            (fun r => decide (r.timestamp ≤ now - (rd : Int) * 86400000))).length
        ∧ c = (d.discardEvents.filter
            (fun r => decide (r.timestamp ≤ now - (rd : Int) * 86400000))).length
        ∧ purgeOldDataOp initRes (some d') now rd = Except.ok (d', 0, 0))
      ∧ (rd = 0 → ∃ d' e c,
          purgeOldDataOp initRes (some d) now rd = Except.ok (d', e, c)
          ∧ d'.tabEvents = d.tabEvents.filter (fun r => decide (now < r.timestamp))
          ∧ e = (d.tabEvents.filter (fun r => decide (r.timestamp ≤ now))).length
          ∧ d'.discardEvents = d.discardEvents.filter (fun r => decide (now < r.timestamp))
          ∧ c = (d.discardEvents.filter (fun r => decide (r.timestamp ≤ now))).length) := by
  intro initRes d now rd
  have hc : now - (rd : Int) * 24 * 60 * 60 * 1000 = now - (rd : Int) * 86400000 := by ring
  constructor
  · refine ⟨_, _, _, rfl, ?_, ?_, rfl, rfl, rfl, ?_, ?_, ?_⟩
    · simp only [purgeOldDataOp, deleteOlderThanL, hc]
    · simp only [purgeOldDataOp, deleteOlderThanL, hc]
    · simp only [purgeOldDataOp, deleteOlderThanL, hc]
    · simp only [purgeOldDataOp, deleteOlderThanL, hc]
    · simp only [purgeOldDataOp, deleteOlderThanL]
      have he := filter_cutoff_split (fun r : TabEventRec => r.timestamp)
        (now - (rd : Int) * 24 * 60 * 60 * 1000) d.tabEvents
      have hd := filter_cutoff_split (fun r : DiscardEventRec => r.timestamp)
        (now - (rd : Int) * 24 * 60 * 60 * 1000) d.discardEvents
      simp only [he.1, he.2, hd.1, hd.2, List.length_nil]
  · intro h0
    subst h0
    refine ⟨_, _, _, rfl, ?_, ?_, ?_, ?_⟩
    · simp only [purgeOldDataOp, deleteOlderThanL]
      norm_num
    · simp only [purgeOldDataOp, deleteOlderThanL]
      norm_num
    · simp only [purgeOldDataOp, deleteOlderThanL]
      norm_num
    · simp only [purgeOldDataOp, deleteOlderThanL]
      norm_num

/-- Witness for amended C6 at a concrete store. -/
theorem purgeOldData_characterization_witness :
    ∃ d' e c,
      purgeOldDataOp (Except.ok {}) (some
        { tabEvents := [{ id := 1, tabId := 1, eventType := "created", timestamp := 50 }] })
        100 0 = Except.ok (d', e, c) ∧ d'.tabEvents = [] ∧ e = 1 := by
  obtain ⟨d', e, c, h1, h2, h3, -⟩ :=
    (purgeOldData_characterization (Except.ok {})
      { tabEvents := [{ id := 1, tabId := 1, eventType := "created", timestamp := 50 }] }
      100 0).2 rfl
  exact ⟨d', e, c, h1, by rw [h2]; rfl, by rw [h3]; rfl⟩

-- ============================================================================
-- Claim theorems: failure semantics and end-to-end pass (C7, C8, C9)
-- ============================================================================

/-- Claim C7 (counterexample): exportAllData invoked while the store is
not ready re-runs initialization, and when opening the database fails
it raises that error to the caller instead of degrading to an empty
export. -/
theorem export_open_failure_raises :
    exportAllDataOp (Except.error "Failed to open database") none 0 =
      Except.error "Failed to open database" := rfl

/-- Claim C7 (amended): operations guarded only by the readiness check
(event append, metadata upsert, metadata get, batch append) never raise
when the store is not ready and return undefined or absent results;
export, clear, stats and purge first re-run initialization: when the
open succeeds they operate on the opened store, and when the open fails
that error is raised to the caller. -/
theorem not_ready_operations_behavior :
    ∀ (tabId : Nat) (et : String) (data : EventData) (now : Int) (q : MetaUpdate)
      (dt : List DiscardedTabInfo) (tt rd : Nat) (e : String) (d : TelemetryDB),
      logTabEventOp none tabId et data now = (none, none)
      ∧ updateTabMetadataOp none tabId q now = none
      ∧ getTabMetadataOp none tabId = none
      ∧ logDiscardEventOp none dt tt now = none
      ∧ exportAllDataOp (Except.error e) none now = Except.error e
      ∧ clearAllDataOp (Except.error e) none = Except.error e
      ∧ getStatsOp (Except.error e) none = Except.error e
      ∧ purgeOldDataOp (Except.error e) none now rd = Except.error e
      ∧ exportAllDataOp (Except.ok d) none now =
          Except.ok { exportDate := now, tabEvents := d.tabEvents,
                      tabMetadata := d.tabMetadata, discardEvents := d.discardEvents }
      ∧ clearAllDataOp (Except.ok d) none =
          Except.ok { d with tabEvents := [], tabMetadata := [], discardEvents := [] }
      ∧ getStatsOp (Except.ok d) none =
          Except.ok { totalEvents := d.tabEvents.length, totalTabs := d.tabMetadata.length,
                      totalDiscards := d.discardEvents.length } := by
  intro tabId et data now q dt tt rd e d
  exact ⟨rfl, rfl, rfl, rfl, rfl, rfl, rfl, rfl, rfl, rfl, rfl⟩

/-- Witness for amended C7 at concrete inputs. -/
theorem not_ready_operations_behavior_witness :
    logTabEventOp none 1 "created" {} 0 = (none, none)
    ∧ exportAllDataOp (Except.error "boom") none 0 = Except.error "boom" := by
  have h := not_ready_operations_behavior 1 "created" {} 0 {} [] 0 0 "boom" {}
  exact ⟨h.1, h.2.2.2.2.1⟩

/-- Claim C8 (counterexample): creating a tab whose URL does not parse
(url not-a-valid-url) writes no metadata record at all - the whole
record is dropped, not stored with the domain omitted - even though the
created event is still logged. -/
theorem invalid_url_drops_metadata_write :
    (handleTabCreated urlHostname true 0
      { id := some 7, url := some "not-a-valid-url", title := some "Invalid" }).metadataWrite =
        none
    ∧ (handleTabCreated urlHostname true 0
      { id := some 7, url := some "not-a-valid-url", title := some "Invalid" }).event.isSome =
        true := by
  exact ⟨rfl, rfl⟩

/-- Claim C8 (amended): when hostname parsing of a tab URL fails, the
failure is contained to that tab: on creation the created event is still
logged (when telemetry is ready) but the metadata write is skipped
entirely; in an automatic pass the tab is skipped entirely for that pass
(neither rule can fire for it) and the pass result over the remaining
tabs is unchanged. -/
theorem malformed_url_local_recovery :
    ∀ (parse : String → Option String) (ready : Bool) (now : Int) (tab : Tab)
      (url : String), tab.url = some url → parse url = none →
      (handleTabCreated parse ready now tab).metadataWrite = none
      ∧ ((handleTabCreated parse ready now tab).event.isSome = true ↔ ready = true)
      ∧ (∀ (patterns : List String) (th : Nat) (lookup : Nat → Option TabMetadata),
          tabDecision parse patterns th ready lookup now tab = none)
      ∧ ∀ (cfg : ExtConfig) (ready2 : Bool) (lookup : Nat → Option TabMetadata)
          (discardOk : Nat → Bool) (tabs1 tabs2 : List Tab),
          (discardTargetTabs parse cfg ready2 lookup discardOk now
              (tabs1 ++ tab :: tabs2)).invocations =
            (discardTargetTabs parse cfg ready2 lookup discardOk now
              (tabs1 ++ tabs2)).invocations
          ∧ (discardTargetTabs parse cfg ready2 lookup discardOk now
              (tabs1 ++ tab :: tabs2)).discardedTabs =
            (discardTargetTabs parse cfg ready2 lookup discardOk now
              (tabs1 ++ tabs2)).discardedTabs := by
  intro parse ready now tab url hu hp
  have hdec : ∀ (patterns : List String) (th : Nat) (ready2 : Bool)
      (lookup : Nat → Option TabMetadata),
      tabDecision parse patterns th ready2 lookup now tab = none := by
    intro patterns th ready2 lookup
    by_cases hs : shouldSkipTab tab
    · simp [tabDecision, hs]
    · simp [tabDecision, hs, hu, hp]
  have hstep : ∀ (patterns : List String) (th : Nat) (ready2 : Bool)
      (lookup : Nat → Option TabMetadata) (discardOk : Nat → Bool),
      passStep parse patterns th ready2 lookup discardOk now tab = none := by
    intro patterns th ready2 lookup discardOk
    simp [passStep, hdec]
  refine ⟨?_, ?_, fun patterns th lookup => hdec patterns th ready lookup, ?_⟩
  · cases hr : ready with
    | false => simp [handleTabCreated]
    | true => simp [handleTabCreated, hu, hp]
  · cases hr : ready with
    | false => simp [handleTabCreated]
    | true => simp [handleTabCreated]
  · intro cfg ready2 lookup discardOk tabs1 tabs2
    constructor
    · simp [discardTargetTabs, List.filterMap_append, List.filterMap_cons, hstep]
    · simp [discardTargetTabs, List.filterMap_append, List.filterMap_cons, hstep]

/-- Witness for amended C8 at a concrete input. -/
theorem malformed_url_local_recovery_witness :
    (handleTabCreated urlHostname true 0
      { id := some 7, url := some "not-a-valid-url" }).metadataWrite = none :=
  (malformed_url_local_recovery urlHostname true 0
    { id := some 7, url := some "not-a-valid-url" } "not-a-valid-url" rfl rfl).1

/-- Claim C9: on the concrete config with the single enabled pattern
sharepoint.com and the two-tab list of the spec example, exactly one
discard invocation happens, on tab 1 with reason site-match, and the
batch record carries discardedCount 1 and totalTabs 2; and for every
pass, the last-run bookkeeping (timestamp and count) is produced
unconditionally while a batch record exists exactly when at least one
tab was discarded and telemetry is ready. -/
theorem end_to_end_pass :
    ((discardTargetTabs urlHostname { targetSites := [("sharepoint.com", true)] } true
        (fun _ => none) (fun _ => true) 777
        [ { id := some 1, url := some "https://sharepoint.com/x" },
          { id := some 2, url := some "https://a.com", active := true } ]).invocations =
        [(1, DiscardReason.siteMatch)]
      ∧ (discardTargetTabs urlHostname { targetSites := [("sharepoint.com", true)] } true
        (fun _ => none) (fun _ => true) 777
        [ { id := some 1, url := some "https://sharepoint.com/x" },
          { id := some 2, url := some "https://a.com", active := true } ]).discardedTabs =
        [{ url := "https://sharepoint.com/x", domain := "sharepoint.com", title := "Untitled", timeSinceLastActive := none, reason := DiscardReason.siteMatch }]
      ∧ (discardTargetTabs urlHostname { targetSites := [("sharepoint.com", true)] } true
        (fun _ => none) (fun _ => true) 777
        [ { id := some 1, url := some "https://sharepoint.com/x" },
          { id := some 2, url := some "https://a.com", active := true } ]).batch =
        some { id := 0, timestamp := 777, discardedCount := 1, totalTabs := 2, tabs := [{ url := "https://sharepoint.com/x", domain := "sharepoint.com", title := "Untitled", timeSinceLastActive := none, reason := DiscardReason.siteMatch }] }
      ∧ (discardTargetTabs urlHostname { targetSites := [("sharepoint.com", true)] } true
        (fun _ => none) (fun _ => true) 777
        [ { id := some 1, url := some "https://sharepoint.com/x" },
          { id := some 2, url := some "https://a.com", active := true } ]).lastRun = 777
      ∧ (discardTargetTabs urlHostname { targetSites := [("sharepoint.com", true)] } true
        (fun _ => none) (fun _ => true) 777
        [ { id := some 1, url := some "https://sharepoint.com/x" },
          { id := some 2, url := some "https://a.com", active := true } ]).lastDiscardedCount =
        1)
    ∧ ∀ (parse : String → Option String) (cfg : ExtConfig) (ready : Bool)
        (lookup : Nat → Option TabMetadata) (discardOk : Nat → Bool) (now : Int)
        (tabs : List Tab),
        (discardTargetTabs parse cfg ready lookup discardOk now tabs).lastRun = now
        ∧ (discardTargetTabs parse cfg ready lookup discardOk now tabs).lastDiscardedCount =
            (discardTargetTabs parse cfg ready lookup discardOk now tabs).discardedTabs.length
        ∧ ((discardTargetTabs parse cfg ready lookup discardOk now tabs).batch.isSome = true ↔
            (discardTargetTabs parse cfg ready lookup discardOk now tabs).discardedTabs ≠ []
            ∧ ready = true) := by
  constructor
  · exact ⟨by decide, by decide, by decide, rfl, by decide⟩
  · intro parse cfg ready lookup discardOk now tabs
    refine ⟨rfl, rfl, ?_⟩
    simp only [discardTargetTabs]
    cases ready with
    | false => simp
    | true =>
      by_cases h : (tabs.filterMap (fun t =>
          (passStep parse (enabledPatterns cfg.targetSites) cfg.idleTabThreshold true lookup
            discardOk now t).bind (fun r => r.2))) = []
      · simp [h]
      · simp [h, List.length_pos.mpr h]

/-- Witness for claim C9 universal bookkeeping at concrete inputs. -/
theorem end_to_end_pass_witness :
    (discardTargetTabs urlHostname {} true (fun _ => none) (fun _ => true) 5 []).lastRun = 5 :=
  (end_to_end_pass.2 urlHostname {} true (fun _ => none) (fun _ => true) 5 []).1
